import Mathlib

/-!
Verification of the TLS certificate scanner (tls_scanner.py and
backend/app/scanner.py): a shallow embedding of its port-classification
tables, CNAME-following resolver loop, certificate-metadata extraction,
chain merging, STARTTLS fetch, and result-collection orchestration,
together with proofs of the behavioural properties claimed for them.
Network and process effects (DNS answers, TLS handshake outcomes, the
external openssl tool's parsed output) enter as explicit parameters, so
every function here is the pure control-flow core of the corresponding
Python function.
-/

namespace TlsScanner

/-- Embeds STARTTLS_PORT_PROTO (tls_scanner.py lines 57-64): the static
port-to-protocol table, as a lookup returning none for unmapped ports. -/
def STARTTLS_PORT_PROTO (port : Nat) : Option String :=
  if port = 25 then some "smtp"
  else if port = 587 then some "smtp"
  else if port = 143 then some "imap"
  else if port = 110 then some "pop3"
  else if port = 21 then some "ftp"
  else if port = 5222 then some "xmpp"
  else none

/-- Embeds IMPLICIT_TLS_PORTS (tls_scanner.py line 67). -/
def IMPLICIT_TLS_PORTS : List Nat := [443, 8443, 993, 995, 465, 5061]

/-- Negotiation mode of a scan task: implicit TLS, or STARTTLS with a
named upgrade protocol. -/
inductive TaskMode where
  | implicit : TaskMode
  | starttls (proto : String) : TaskMode
deriving DecidableEq, Repr

/-- One (ip, port, mode, SNI) scan task as built by scan_target. -/
structure ScanTask where
  ip : String
  port : Nat
  mode : TaskMode
  sni : String
deriving DecidableEq, Repr

/-- Embeds the task-construction loop of scan_target (tls_scanner.py
lines 315-327): for each ip (all, or only the first, depending on
resolve_all_ips) and each port, classify the port as implicit TLS,
enabled STARTTLS, or implicit by default. -/
def buildTasks (ips : List String) (resolve_all_ips : Bool) (ports : List Nat)
    (starttls_protocols : List String) (host : String) : List ScanTask :=
  (if resolve_all_ips then ips else ips.take 1).flatMap fun ip =>
    ports.map fun port =>
      if port ∈ IMPLICIT_TLS_PORTS then
        { ip := ip, port := port, mode := .implicit, sni := host }
      else
        match STARTTLS_PORT_PROTO port with
        | some proto =>
          if proto ∈ starttls_protocols then
            { ip := ip, port := port, mode := .starttls proto, sni := host }
          else
            { ip := ip, port := port, mode := .implicit, sni := host }
        | none => { ip := ip, port := port, mode := .implicit, sni := host }

/-- Embeds the bounded loop body of follow_cname_chain (tls_scanner.py
lines 70-84): `resolve` is the CNAME lookup (none models both an empty
answer and a DNS exception, either of which breaks the loop). -/
def followAux (resolve : String → Option String) :
    Nat → String → List String → String × List String
  | 0, current, chain => (current, chain)
  | fuel + 1, current, chain =>
    match resolve current with
    | none => (current, chain)
    | some target => followAux resolve fuel target (chain ++ [target])

/-- Embeds follow_cname_chain (tls_scanner.py lines 70-84) at its
default max_depth of 10 hops. -/
def follow_cname_chain (resolve : String → Option String) (name : String)
    (max_depth : Nat) : String × List String :=
  followAux resolve max_depth name []

theorem followAux_length_le (resolve : String → Option String) :
    ∀ (fuel : Nat) (current : String) (chain : List String),
      (followAux resolve fuel current chain).2.length ≤ chain.length + fuel := by
  intro fuel
  induction fuel with
  | zero => intro current chain; simp [followAux]
  | succ n ih =>
    intro current chain
    simp only [followAux]
    cases resolve current with
    | none => simp
    | some target =>
      have h := ih target (chain ++ [target])
      simp at h ⊢
      omega

theorem followAux_last (resolve : String → Option String) (name : String) :
    ∀ (fuel : Nat) (current : String) (chain : List String),
      current = chain.getLast?.getD name →
      (followAux resolve fuel current chain).1 =
        ((followAux resolve fuel current chain).2.getLast?).getD name := by
  intro fuel
  induction fuel with
  | zero => intro current chain h; simpa [followAux] using h
  | succ n ih =>
    intro current chain h
    simp only [followAux]
    cases resolve current with
    | none => simpa using h
    | some target =>
      apply ih target (chain ++ [target])
      simp

theorem followAux_stop (resolve : String → Option String) :
    ∀ (fuel : Nat) (current : String) (chain : List String),
      resolve (followAux resolve fuel current chain).1 = none ∨
        (followAux resolve fuel current chain).2.length = chain.length + fuel := by
  intro fuel
  induction fuel with
  | zero => intro current chain; right; simp [followAux]
  | succ n ih =>
    intro current chain
    simp only [followAux]
    cases h : resolve current with
    | none => left; simpa using h
    | some target =>
      rcases ih target (chain ++ [target]) with h1 | h1
      · left; simpa using h1
      · right; simp at h1 ⊢; omega

/-- C8: follow_cname_chain terminates on every input (it is a total
function of its 10-hop fuel), its hop chain has length at most 10, the
returned canonical name is the last name reached (the last chain entry,
or the input name when no hop was taken), and the loop stops early
exactly when the current name has no CNAME record: either the final name
resolves to no CNAME, or all 10 hops were used — so cyclic chains such
as A→B→A merely exhaust the hop budget. -/
theorem follow_cname_bounded (resolve : String → Option String) (name : String) :
    (follow_cname_chain resolve name 10).2.length ≤ 10 ∧
    (follow_cname_chain resolve name 10).1 =
      ((follow_cname_chain resolve name 10).2.getLast?).getD name ∧
    (resolve (follow_cname_chain resolve name 10).1 = none ∨
      (follow_cname_chain resolve name 10).2.length = 10) := by
  refine ⟨?_, ?_, ?_⟩
  · simpa using followAux_length_le resolve 10 name []
  · exact followAux_last resolve name 10 name [] (by simp)
  · simpa using followAux_stop resolve 10 name []

/-- Outcome of a fallible Python attribute access or method call on a
certificate object: a value, or the message of the exception it raised. -/
abbrev Fallible (α : Type) := Except String α

/-- The public-key object returned by cert.public_key(), as classified by
the isinstance chain of cert_to_metadata (tls_scanner.py lines 171-185):
RSA and DSA keys carry a (fallible) key_size attribute, elliptic-curve
keys carry a fallible curve.name with str(pub.curve) as the fallback
label, and any other key object only exposes its class name. -/
inductive PubKey where
  | rsa (key_size : Fallible Nat) : PubKey
  | ecdsa (curve_name : Fallible String) (curve_str : String) : PubKey
  | dsa (key_size : Fallible Nat) : PubKey
  | other (class_name : String) : PubKey

/-- A parsed x509 certificate object, each accessor modelled as fallible
(the Python bindings raise on unsupported algorithms and malformed
fields; cert_to_metadata wraps most, but not all, accesses in try). -/
structure Cert where
  subject : Fallible String
  issuer : Fallible String
  not_before : Fallible String
  not_after : Fallible String
  serial_number : Fallible String
  san : Fallible (List String)
  public_key : Fallible PubKey
  signature_algorithm_oid : Fallible String
  signature_hash_algorithm : Fallible (Option String)
  sha256_fingerprint : Fallible String

/-- The metadata dict built by cert_to_metadata; absent keys are none. -/
structure Metadata where
  subject : Option String := none
  issuer : Option String := none
  not_before : Option String := none
  not_after : Option String := none
  serial_number : Option String := none
  parse_error_basic : Option String := none
  san : List String := []
  public_key_algorithm : Option String := none
  public_key_bits : Option Nat := none
  public_key_curve : Option String := none
  public_key_parse_error : Option String := none
  signature_algorithm_oid : Option String := none
  signature_hash_algorithm : Option String := none
  sha256_fingerprint : Option String := none
deriving DecidableEq, Repr

/-- Embeds the first try block of cert_to_metadata (tls_scanner.py lines
150-157): subject, issuer, validity and serial are assigned in order
inside one try; the first raise aborts the rest of the block, keeps the
assignments already made, and records parse_error_basic. -/
def basicFields (subj iss nb na sn : Fallible String) (d : Metadata) : Metadata :=
  match subj with
  | .error e => { d with parse_error_basic := some e }
  | .ok s =>
    let d := { d with subject := some s }
    match iss with
    | .error e => { d with parse_error_basic := some e }
    | .ok v =>
      let d := { d with issuer := some v }
      match nb with
      | .error e => { d with parse_error_basic := some e }
      | .ok v =>
        let d := { d with not_before := some v }
        match na with
        | .error e => { d with parse_error_basic := some e }
        | .ok v =>
          let d := { d with not_after := some v }
          match sn with
          | .error e => { d with parse_error_basic := some e }
          | .ok v => { d with serial_number := some v }

/-- Embeds the SAN try block (tls_scanner.py lines 160-166): any failure
(absent extension included) degrades to an empty SAN list. -/
def sanField (san : Fallible (List String)) (d : Metadata) : Metadata :=
  match san with
  | .ok l => { d with san := l }
  | .error _ => { d with san := [] }

/-- Embeds the public-key classification try block (tls_scanner.py lines
170-187): the algorithm label is assigned before the size/curve lookup,
a raise inside the block records public_key_parse_error, a failing
curve.name falls back to str(pub.curve), and an unrecognised key object
is labelled with its class name. -/
def keyFields (pub : PubKey) (d : Metadata) : Metadata :=
  match pub with
  | .rsa ks =>
    let d := { d with public_key_algorithm := some "RSA" }
    match ks with
    | .ok n => { d with public_key_bits := some n }
    | .error e => { d with public_key_parse_error := some e }
  | .ecdsa cn cs =>
    let d := { d with public_key_algorithm := some "ECDSA" }
    match cn with
    | .ok n => { d with public_key_curve := some n }
    | .error _ => { d with public_key_curve := some cs }
  | .dsa ks =>
    let d := { d with public_key_algorithm := some "DSA" }
    match ks with
    | .ok n => { d with public_key_bits := some n }
    | .error e => { d with public_key_parse_error := some e }
  | .other cls => { d with public_key_algorithm := some cls }

/-- Embeds the signature-algorithm try blocks (tls_scanner.py lines
190-198): each failure independently degrades to none. -/
def sigFields (oid : Fallible String) (sha : Fallible (Option String))
    (d : Metadata) : Metadata :=
  let d :=
    match oid with
    | .ok v => { d with signature_algorithm_oid := some v }
    | .error _ => { d with signature_algorithm_oid := none }
  match sha with
  | .ok v => { d with signature_hash_algorithm := v }
  | .error _ => { d with signature_hash_algorithm := none }

/-- Embeds the fingerprint try block (tls_scanner.py lines 201-205). -/
def fingerprintField (fp : Fallible String) (d : Metadata) : Metadata :=
  match fp with
  | .ok v => { d with sha256_fingerprint := some v }
  | .error _ => { d with sha256_fingerprint := none }

/-- Embeds cert_to_metadata (tls_scanner.py lines 148-207). The call
`pub = cert.public_key()` on line 169 sits outside every try block, so
an exception raised there propagates out of the function (modelled as
the .error case); every other field access is inside a try. -/
def cert_to_metadata (cert : Cert) : Fallible Metadata :=
  let d : Metadata := {}
  let d := basicFields cert.subject cert.issuer cert.not_before
    cert.not_after cert.serial_number d
  let d := sanField cert.san d
  match cert.public_key with
  | .error e => .error e
  | .ok pub =>
    let d := keyFields pub d
    let d := sigFields cert.signature_algorithm_oid cert.signature_hash_algorithm d
    let d := fingerprintField cert.sha256_fingerprint d
    .ok d

theorem basicFields_san (subj iss nb na sn : Fallible String) (d : Metadata) :
    (basicFields subj iss nb na sn d).san = d.san := by
  cases subj <;> cases iss <;> cases nb <;> cases na <;> cases sn <;> rfl

theorem basicFields_error (e : String) (iss nb na sn : Fallible String) (d : Metadata) :
    (basicFields (.error e) iss nb na sn d).parse_error_basic = some e := rfl

theorem sanField_san (san : Fallible (List String)) (d : Metadata) :
    (sanField san d).san = match san with | .ok l => l | .error _ => [] := by
  cases san <;> rfl

theorem sanField_parse_error_basic (san : Fallible (List String)) (d : Metadata) :
    (sanField san d).parse_error_basic = d.parse_error_basic := by
  cases san <;> rfl

theorem keyFields_san (pub : PubKey) (d : Metadata) :
    (keyFields pub d).san = d.san := by
  cases pub with
  | rsa ks => cases ks <;> rfl
  | ecdsa cn cs => cases cn <;> rfl
  | dsa ks => cases ks <;> rfl
  | other cls => rfl

theorem keyFields_parse_error_basic (pub : PubKey) (d : Metadata) :
    (keyFields pub d).parse_error_basic = d.parse_error_basic := by
  cases pub with
  | rsa ks => cases ks <;> rfl
  | ecdsa cn cs => cases cn <;> rfl
  | dsa ks => cases ks <;> rfl
  | other cls => rfl

theorem keyFields_other (cls : String) (d : Metadata) :
    (keyFields (.other cls) d).public_key_algorithm = some cls := rfl

theorem sigFields_san (oid : Fallible String) (sha : Fallible (Option String))
    (d : Metadata) : (sigFields oid sha d).san = d.san := by
  cases oid <;> cases sha <;> rfl

theorem sigFields_parse_error_basic (oid : Fallible String)
    (sha : Fallible (Option String)) (d : Metadata) :
    (sigFields oid sha d).parse_error_basic = d.parse_error_basic := by
  cases oid <;> cases sha <;> rfl

theorem sigFields_key_alg (oid : Fallible String) (sha : Fallible (Option String))
    (d : Metadata) : (sigFields oid sha d).public_key_algorithm = d.public_key_algorithm := by
  cases oid <;> cases sha <;> rfl

theorem fingerprintField_san (fp : Fallible String) (d : Metadata) :
    (fingerprintField fp d).san = d.san := by
  cases fp <;> rfl

theorem fingerprintField_parse_error_basic (fp : Fallible String) (d : Metadata) :
    (fingerprintField fp d).parse_error_basic = d.parse_error_basic := by
  cases fp <;> rfl

theorem fingerprintField_key_alg (fp : Fallible String) (d : Metadata) :
    (fingerprintField fp d).public_key_algorithm = d.public_key_algorithm := by
  cases fp <;> rfl

theorem fingerprintField_error (e : String) (d : Metadata) :
    (fingerprintField (.error e) d).sha256_fingerprint = none := rfl

/-- C4 counterexample: cert_to_metadata does not return on every parsed
certificate object — when the cert.public_key() accessor itself raises
(as the cryptography bindings do for an unsupported key algorithm), the
exception propagates out of cert_to_metadata, because that one call sits
outside every try block (tls_scanner.py line 169); no metadata record
with a field-level error marker is produced. -/
theorem cert_to_metadata_raises_counterexample :
    cert_to_metadata
      { subject := .ok "CN=leaf", issuer := .ok "CN=ca",
        not_before := .ok "2025-01-01T00:00:00",
        not_after := .ok "2026-01-01T00:00:00", serial_number := .ok "1a",
        san := .ok ["example.com"],
        public_key := .error "Unknown key type",
        signature_algorithm_oid := .ok "1.2.840.113549.1.1.11",
        signature_hash_algorithm := .ok (some "sha256"),
        sha256_fingerprint := .ok "ab12" } = .error "Unknown key type" := rfl

/-- C4 amended: provided the cert.public_key() accessor itself succeeds,
cert_to_metadata returns a metadata record without raising, and field
extraction is fault-isolated: a failure in the subject/issuer/validity/
serial block is recorded as parse_error_basic without preventing SAN
extraction, a SAN failure degrades to an empty list, a public-key object
that is not RSA/EC/DSA is labelled with its class name, and a failing
fingerprint degrades to none. -/
theorem cert_to_metadata_isolated (cert : Cert) (pub : PubKey)
    (h : cert.public_key = .ok pub) :
    (cert_to_metadata cert).isOk = true ∧
    (cert_to_metadata cert).map Metadata.san =
      .ok (match cert.san with | .ok l => l | .error _ => []) ∧
    (∀ cls, pub = .other cls →
      (cert_to_metadata cert).map Metadata.public_key_algorithm = .ok (some cls)) ∧
    (∀ e, cert.subject = .error e →
      (cert_to_metadata cert).map Metadata.parse_error_basic = .ok (some e)) ∧
    (∀ e, cert.sha256_fingerprint = .error e →
      (cert_to_metadata cert).map Metadata.sha256_fingerprint = .ok none) := by
  refine ⟨?_, ?_, ?_, ?_, ?_⟩
  · simp only [cert_to_metadata, h]; rfl
  · simp only [cert_to_metadata, h, Except.map]
    rw [fingerprintField_san, sigFields_san, keyFields_san, sanField_san]
  · intro cls hcls
    subst hcls
    simp only [cert_to_metadata, h, Except.map]
    rw [fingerprintField_key_alg, sigFields_key_alg, keyFields_other]
  · intro e he
    simp only [cert_to_metadata, h, Except.map]
    rw [fingerprintField_parse_error_basic, sigFields_parse_error_basic,
      keyFields_parse_error_basic, sanField_parse_error_basic, he, basicFields_error]
  · intro e he
    simp only [cert_to_metadata, h, Except.map]
    rw [he, fingerprintField_error]

/-- A concrete certificate object whose public key parses to an
unrecognised class, while subject, SAN and fingerprint accesses raise. -/
def sampleCert : Cert :=
  { subject := .error "bad subject", issuer := .ok "CN=ca",
    not_before := .ok "2025-01-01T00:00:00",
    not_after := .ok "2026-01-01T00:00:00", serial_number := .ok "1a",
    san := .error "no san extension",
    public_key := .ok (.other "Dilithium2PublicKey"),
    signature_algorithm_oid := .ok "1.3.6.1.4.1.2.267.7.4.4",
    signature_hash_algorithm := .error "unsupported",
    sha256_fingerprint := .error "bad fingerprint" }

/-- Witness for cert_to_metadata_isolated at sampleCert. -/
theorem cert_to_metadata_isolated_witness :
    sampleCert.public_key = .ok (.other "Dilithium2PublicKey") ∧
    (cert_to_metadata sampleCert).isOk = true ∧
    (cert_to_metadata sampleCert).map Metadata.san = .ok [] ∧
    (cert_to_metadata sampleCert).map Metadata.public_key_algorithm =
      .ok (some "Dilithium2PublicKey") ∧
    (cert_to_metadata sampleCert).map Metadata.parse_error_basic =
      .ok (some "bad subject") ∧
    (cert_to_metadata sampleCert).map Metadata.sha256_fingerprint = .ok none :=
  have h := cert_to_metadata_isolated sampleCert (.other "Dilithium2PublicKey") rfl
  ⟨rfl, h.1, h.2.1, h.2.2.1 "Dilithium2PublicKey" rfl,
    h.2.2.2.1 "bad subject" rfl, h.2.2.2.2 "bad fingerprint" rfl⟩

/-- One entry of result['results'] as appended by the as_completed loop
of scan_target (tls_scanner.py lines 343-356): the task identity copied
from future_map plus the future's outcome. α is the fetcher's return
type; a raised exception e becomes the error dict (modelled .error e). -/
structure ResultEntry (α : Type) where
  type : String
  ip : String
  port : Nat
  sni : String
  result : Except String α

/-- The entry that scan_target's collection loop appends for a task:
the future_map metadata recorded at submission plus fut.result(), with
`except Exception as e: res = \x7b'error': str(e)\x7d` modelled by the
.error case of the fetch outcome. -/
def entryOf {α : Type} (fetch : ScanTask → Except String α) (t : ScanTask) :
    ResultEntry α :=
  { type := match t.mode with | .implicit => "implicit" | .starttls _ => "starttls",
    ip := t.ip, port := t.port, sni := t.sni, result := fetch t }

/-- Embeds the as_completed collection loop of scan_target (tls_scanner.py
lines 343-356): futures complete in an arbitrary order, modelled by the
index list `order` over the submitted task list; each completed future
appends exactly one entry built from its future_map metadata. -/
def collectResults {α : Type} (tasks : List ScanTask)
    (fetch : ScanTask → Except String α) (order : List Nat) :
    List (ResultEntry α) :=
  order.filterMap fun i => (tasks[i]?).map (entryOf fetch)

theorem filterMap_range_get {α β : Type} (l : List α) (f : α → β) :
    (List.range l.length).filterMap (fun i => (l[i]?).map f) = l.map f := by
  induction l with
  | nil => rfl
  | cons x xs ih =>
    rw [List.length_cons, List.range_succ_eq_map]
    simp only [List.filterMap_cons, List.getElem?_cons_zero, Option.map_some',
      List.filterMap_map, List.map_cons]
    have hc : ((fun i => Option.map f (x :: xs)[i]?) ∘ Nat.succ) =
        fun i => Option.map f xs[i]? := by
      funext i
      simp
    rw [hc, ih]

/-- Any completion order that is a permutation of the submitted futures
yields results that are, up to order, exactly one entry per task. -/
theorem collectResults_perm {α : Type} (tasks : List ScanTask)
    (fetch : ScanTask → Except String α) (order : List Nat)
    (h : order.Perm (List.range tasks.length)) :
    (collectResults tasks fetch order).Perm (tasks.map (entryOf fetch)) := by
  have hp := h.filterMap fun i => (tasks[i]?).map (entryOf fetch)
  rwa [filterMap_range_get] at hp

/-- C1: for a completed scan over a built task list of length K — the
as_completed loop sees every submitted future exactly once, in an
arbitrary completion order — the results list has exactly K entries and
is a permutation of one entry per submitted task (no task dropped, none
duplicated); a task whose fetch raises contributes its error entry like
any other. -/
theorem scan_results_one_per_task {α : Type} (tasks : List ScanTask)
    (fetch : ScanTask → Except String α) (order : List Nat)
    (h : order.Perm (List.range tasks.length)) :
    (collectResults tasks fetch order).length = tasks.length ∧
    (collectResults tasks fetch order).Perm (tasks.map (entryOf fetch)) := by
  have hp := collectResults_perm tasks fetch order h
  exact ⟨by rw [hp.length_eq, List.length_map], hp⟩

/-- Witness for scan_results_one_per_task: two tasks, reversed
completion order, the second fetch raising an exception. -/
theorem scan_results_one_per_task_witness :
    [1, 0].Perm (List.range
      ([{ ip := "192.0.2.1", port := 443, mode := .implicit, sni := "example.com" },
        { ip := "192.0.2.1", port := 25, mode := .starttls "smtp", sni := "example.com" }] :
        List ScanTask).length) ∧
    (collectResults
      [{ ip := "192.0.2.1", port := 443, mode := .implicit, sni := "example.com" },
       { ip := "192.0.2.1", port := 25, mode := .starttls "smtp", sni := "example.com" }]
      (fun t => if t.port = 25 then .error "Connection refused" else .ok 1)
      [1, 0]).length = 2 :=
  ⟨by decide,
    (scan_results_one_per_task _
      (fun t => if t.port = 25 then .error "Connection refused" else (.ok 1 : Except String Nat))
      [1, 0] (by decide)).1⟩

/-- Spec-side definition (from the spec's words, for the refinement
check): «the final aggregate preserves a canonical ordering (by IP then
port)» — each adjacent pair of result entries is ordered by IP string,
ties broken by port. -/
def canonicallyOrdered {α : Type} (l : List (ResultEntry α)) : Prop :=
  l.Chain' fun a b => a.ip < b.ip ∨ (a.ip = b.ip ∧ a.port ≤ b.port)

/-- C5 counterexample: scan_target appends results in completion order
and never sorts them — with tasks (10.0.0.1, 443) and (10.0.0.1, 8443)
and the futures completing in reverse submission order, the aggregate
lists port 8443 before port 443, so it is not canonically ordered by IP
then port. -/
theorem results_not_sorted_counterexample :
    [1, 0].Perm (List.range
      ([{ ip := "10.0.0.1", port := 443, mode := .implicit, sni := "example.com" },
        { ip := "10.0.0.1", port := 8443, mode := .implicit, sni := "example.com" }] :
        List ScanTask).length) ∧
    ¬ canonicallyOrdered (collectResults
        [{ ip := "10.0.0.1", port := 443, mode := .implicit, sni := "example.com" },
         { ip := "10.0.0.1", port := 8443, mode := .implicit, sni := "example.com" }]
        (fun _ => (.ok 0 : Except String Nat)) [1, 0]) := by
  constructor
  · decide
  · intro hc
    have hc' : List.Chain' (fun a b : ResultEntry Nat =>
        a.ip < b.ip ∨ (a.ip = b.ip ∧ a.port ≤ b.port))
        [{ type := "implicit", ip := "10.0.0.1", port := 8443,
           sni := "example.com", result := .ok 0 },
         { type := "implicit", ip := "10.0.0.1", port := 443,
           sni := "example.com", result := .ok 0 }] := hc
    rcases List.chain'_cons.mp hc' with ⟨hrel, -⟩
    rcases hrel with hlt | ⟨-, hle⟩
    · exact lt_irrefl _ hlt
    · exact absurd hle (by decide)

/-- C5 amended: the aggregate results list is emitted in task-completion
order, which is arbitrary; no canonical (IP, port) sort is applied. What
is independent of the completion order is the collection up to
reordering: any two completion orders yield permutations of each other,
and every entry is re-associated with its originating task's identity. -/
theorem results_completion_order_amended {α : Type} (tasks : List ScanTask)
    (fetch : ScanTask → Except String α) (o1 o2 : List Nat)
    (h1 : o1.Perm (List.range tasks.length))
    (h2 : o2.Perm (List.range tasks.length)) :
    (collectResults tasks fetch o1).Perm (collectResults tasks fetch o2) ∧
    ∀ e ∈ collectResults tasks fetch o1, ∃ t ∈ tasks, e = entryOf fetch t := by
  constructor
  · exact (h1.trans h2.symm).filterMap fun i => (tasks[i]?).map (entryOf fetch)
  · intro e he
    have hm := (collectResults_perm tasks fetch o1 h1).mem_iff.mp he
    obtain ⟨t, hts, rfl⟩ := List.mem_map.mp hm
    exact ⟨t, hts, rfl⟩

/-- Witness for results_completion_order_amended: the two-task scan of
the counterexample, with completion orders [1, 0] and [0, 1]. -/
theorem results_completion_order_amended_witness :
    [1, 0].Perm (List.range
      ([{ ip := "10.0.0.1", port := 443, mode := .implicit, sni := "example.com" },
        { ip := "10.0.0.1", port := 8443, mode := .implicit, sni := "example.com" }] :
        List ScanTask).length) ∧
    [0, 1].Perm (List.range
      ([{ ip := "10.0.0.1", port := 443, mode := .implicit, sni := "example.com" },
        { ip := "10.0.0.1", port := 8443, mode := .implicit, sni := "example.com" }] :
        List ScanTask).length) ∧
    (collectResults
      [{ ip := "10.0.0.1", port := 443, mode := .implicit, sni := "example.com" },
       { ip := "10.0.0.1", port := 8443, mode := .implicit, sni := "example.com" }]
      (fun _ => (.ok 0 : Except String Nat)) [1, 0]).Perm
      (collectResults
        [{ ip := "10.0.0.1", port := 443, mode := .implicit, sni := "example.com" },
         { ip := "10.0.0.1", port := 8443, mode := .implicit, sni := "example.com" }]
        (fun _ => (.ok 0 : Except String Nat)) [0, 1]) :=
  ⟨by decide, by decide,
    (results_completion_order_amended _ (fun _ => (.ok 0 : Except String Nat))
      [1, 0] [0, 1] (by decide) (by decide)).1⟩

/-- C2: every task built by scan_target is classified in order: a port
in the implicit-TLS table is Implicit regardless of the enabled STARTTLS
set; otherwise a port with a STARTTLS mapping whose protocol is enabled
is StartTLS with that protocol, and with the protocol not enabled it
falls back to Implicit; a port with no mapping defaults to Implicit. -/
theorem task_mode_classification (ips : List String) (ra : Bool)
    (ports : List Nat) (prots : List String) (host : String) (t : ScanTask)
    (ht : t ∈ buildTasks ips ra ports prots host) :
    (t.port ∈ IMPLICIT_TLS_PORTS → t.mode = .implicit) ∧
    (∀ proto, t.port ∉ IMPLICIT_TLS_PORTS →
      STARTTLS_PORT_PROTO t.port = some proto →
      (proto ∈ prots → t.mode = .starttls proto) ∧
      (proto ∉ prots → t.mode = .implicit)) ∧
    (t.port ∉ IMPLICIT_TLS_PORTS → STARTTLS_PORT_PROTO t.port = none →
      t.mode = .implicit) := by
  rw [buildTasks] at ht
  obtain ⟨ip, hip, ht⟩ := List.mem_flatMap.mp ht
  obtain ⟨port, hport, rfl⟩ := List.mem_map.mp ht
  by_cases hp : port ∈ IMPLICIT_TLS_PORTS
  · rw [if_pos hp]
    exact ⟨fun _ => rfl, fun proto hnp _ => absurd hp hnp, fun hnp _ => absurd hp hnp⟩
  · rw [if_neg hp]
    cases hs : STARTTLS_PORT_PROTO port with
    | none =>
      dsimp only
      refine ⟨fun hmem => absurd hmem hp, fun proto _ hsome => ?_, fun _ _ => rfl⟩
      rw [hs] at hsome
      cases hsome
    | some proto =>
      dsimp only
      by_cases hin : proto ∈ prots
      · rw [if_pos hin]
        refine ⟨fun hmem => absurd hmem hp, fun proto2 _ hsome => ?_, fun _ hnone => ?_⟩
        · rw [hs] at hsome
          cases hsome
          exact ⟨fun _ => rfl, fun hnin => absurd hin hnin⟩
        · rw [hs] at hnone
          cases hnone
      · rw [if_neg hin]
        refine ⟨fun hmem => absurd hmem hp, fun proto2 _ hsome => ?_, fun _ _ => rfl⟩
        rw [hs] at hsome
        cases hsome
        exact ⟨fun hin2 => absurd hin2 hin, fun _ => rfl⟩

/-- The StartTLS smtp task scan_target builds for port 25 with smtp
enabled. -/
def smtpTask : ScanTask :=
  { ip := "192.0.2.7", port := 25, mode := .starttls "smtp",
    sni := "mail.example.com" }

/-- Witness for task_mode_classification: scanning port 25 with smtp
enabled yields a StartTLS smtp task. -/
theorem task_mode_classification_witness :
    smtpTask ∈ buildTasks ["192.0.2.7"] true [25] ["smtp"] "mail.example.com" ∧
    smtpTask.mode = .starttls "smtp" := by
  have ht : smtpTask ∈
      buildTasks ["192.0.2.7"] true [25] ["smtp"] "mail.example.com" := by decide
  exact ⟨ht, ((task_mode_classification ["192.0.2.7"] true [25] ["smtp"]
    "mail.example.com" smtpTask ht).2.1 "smtp" (by decide) (by decide)).1 (by decide)⟩

end TlsScanner

namespace BackendScanner

/-- DER-encoded certificate bytes (backend/app/scanner.py works on raw
byte strings; byte-identity is list equality). -/
abbrev DER := List Nat

/-- Embeds the chain-append loop of fetch_cert_from_port
(backend/app/scanner.py lines 112-122): the openssl output's PEM blocks
are iterated with their index i; a block that fails to parse is skipped
silently (`except Exception: pass`); a parsed block re-encoded to DER is
appended when `i > 0 or cert_der != der`. Each list element is the parse
outcome of one PEM block (none = the parse raised). -/
def mergeChainAux (der : DER) : Nat → List (Option DER) → List DER
  | _, [] => []
  | i, p :: rest =>
    match p with
    | none => mergeChainAux der (i + 1) rest
    | some cert_der =>
      if 0 < i ∨ cert_der ≠ der then cert_der :: mergeChainAux der (i + 1) rest
      else mergeChainAux der (i + 1) rest

/-- The certificates list after the merge: the native leaf, appended
first on handshake success, followed by the external tool's chain
entries filtered by the loop above. -/
def mergeCertificates (der : DER) (pems : List (Option DER)) : List DER :=
  der :: mergeChainAux der 0 pems

/-- The exception classes caught by fetch_cert_from_port
(backend/app/scanner.py lines 125-134). -/
inductive NetError where
  | timeout (secs : Nat) : NetError
  | gaierror (msg : String) : NetError
  | refused : NetError
  | sslError (msg : String) : NetError
  | other (msg : String) : NetError

/-- The error string each except branch stores. -/
def errString : NetError → String
  | .timeout s => "Connection timeout after " ++ toString s ++ "s"
  | .gaierror m => "DNS resolution failed: " ++ m
  | .refused => "Connection refused"
  | .sslError m => "SSL/TLS error: " ++ m
  | .other m => m

/-- The observable outcome of a successful TCP connect + TLS wrap:
getpeercert's DER (none when the server returned no certificate), and
the parsed PEM blocks of the openssl -showcerts output (none when
openssl produced no output or the chain extraction raised — both are
swallowed by the inner try/except). -/
structure Conn where
  der : Option DER
  openssl_pems : Option (List (Option DER))

/-- The result dict of fetch_cert_from_port. -/
structure FetchPortResult where
  success : Bool
  certificates : List DER
  error : Option String
deriving DecidableEq, Repr

/-- Embeds fetch_cert_from_port (backend/app/scanner.py lines 80-139):
the result starts as success=False, certificates=[], error=None; a
connection-level exception stores its message; a missing peer
certificate stores a fixed error; otherwise the leaf DER is appended,
success is set, and the openssl chain (when available) is merged. -/
def fetch_cert_from_port (connect : Except NetError Conn) : FetchPortResult :=
  match connect with
  | .error e => { success := false, certificates := [], error := some (errString e) }
  | .ok conn =>
    match conn.der with
    | none => { success := false, certificates := [],
                error := some "No certificate returned by server" }
    | some der =>
      match conn.openssl_pems with
      | none => { success := true, certificates := [der], error := none }
      | some pems =>
        { success := true, certificates := mergeCertificates der pems, error := none }

/-- C6: no result of fetch_cert_from_port has the success flag set and a
populated error at once — success implies error is None, and a stored
error implies success stayed False. -/
theorem fetch_port_success_error_exclusive (connect : Except NetError Conn) :
    ((fetch_cert_from_port connect).success &&
      (fetch_cert_from_port connect).error.isSome) = false := by
  rcases connect with e | ⟨der, pems⟩
  · rfl
  · cases der <;> cases pems <;> rfl

/-- C3 counterexample: the duplicate-leaf check applies only to the PEM
block at index 0 — when the external tool's chain lists another
certificate first and the leaf second, the byte-identical leaf at index
1 is appended anyway, so the merged certificates list [leaf, other,
leaf] contains the leaf twice, not exactly once. -/
theorem merge_dedup_only_first_counterexample :
    ¬ ((fetch_cert_from_port
        (.ok { der := some [1], openssl_pems := some [some [2], some [1]] })
      ).certificates.count [1] = 1) := by decide

theorem mergeChainAux_count_zero (der : DER) :
    ∀ (pems : List (Option DER)) (i : Nat), some der ∉ pems →
      (mergeChainAux der i pems).count der = 0 := by
  intro pems
  induction pems with
  | nil => intro i _; rfl
  | cons p rest ih =>
    intro i h
    have hp : p ≠ some der := fun he => h (he ▸ List.mem_cons_self p rest)
    have hr : some der ∉ rest := fun hm => h (List.mem_cons_of_mem p hm)
    match p with
    | none => simpa [mergeChainAux] using ih (i + 1) hr
    | some cd =>
      have hcd : cd ≠ der := fun he => hp (by rw [he])
      simp [mergeChainAux, hcd, List.count_cons, Ne.symm hcd, ih (i + 1) hr]

/-- C3 amended: on handshake success the native leaf is always the first
merged certificate, and the external chain's entry at index 0 is skipped
when byte-identical to the leaf — so as long as no later chain entry
reproduces the leaf (the one case the code's check misses), the leaf
appears exactly once in the merged result. -/
theorem merge_leaf_once (der : DER) (pems : List (Option DER))
    (h : some der ∉ pems.tail) :
    (fetch_cert_from_port
      (.ok { der := some der, openssl_pems := some pems })).certificates.head? =
      some der ∧
    (fetch_cert_from_port
      (.ok { der := some der, openssl_pems := some pems })).certificates.count der =
      1 := by
  refine ⟨rfl, ?_⟩
  show (mergeCertificates der pems).count der = 1
  rw [mergeCertificates]
  have hz : (mergeChainAux der 0 pems).count der = 0 := by
    match pems with
    | [] => rfl
    | p :: rest =>
      have hr : some der ∉ rest := by simpa using h
      match p with
      | none => simpa [mergeChainAux] using mergeChainAux_count_zero der rest 1 hr
      | some cd =>
        by_cases hcd : cd = der
        · rw [hcd]
          simpa [mergeChainAux] using mergeChainAux_count_zero der rest 1 hr
        · simp [mergeChainAux, hcd, List.count_cons, Ne.symm hcd,
            mergeChainAux_count_zero der rest 1 hr]
  simp [List.count_cons, hz]

/-- Witness for merge_leaf_once: the external tool returns the leaf
itself at chain index 0 (the usual openssl -showcerts layout) followed
by an intermediate; the merged list keeps the leaf exactly once. -/
theorem merge_leaf_once_witness :
    (some [1] ∉ ([some [1], some [2]] : List (Option DER)).tail) ∧
    (fetch_cert_from_port
      (.ok { der := some [1], openssl_pems := some [some [1], some [2]] })
    ).certificates.head? = some [1] ∧
    (fetch_cert_from_port
      (.ok { der := some [1], openssl_pems := some [some [1], some [2]] })
    ).certificates.count [1] = 1 :=
  have h : some [1] ∉ ([some [1], some [2]] : List (Option DER)).tail := by decide
  ⟨h, (merge_leaf_once [1] [some [1], some [2]] h).1,
    (merge_leaf_once [1] [some [1], some [2]] h).2⟩

/-- C7 counterexample (backend path): fetch_cert_from_port drops a
malformed PEM block silently — with the native leaf plus two external
blocks of which the second is malformed, the certificates list has only
2 entries, not the 3 (leaf + one entry per block) that a per-certificate
parse-error marker policy would produce; no marker of any kind is
recorded. -/
theorem malformed_block_dropped_counterexample :
    ¬ ((fetch_cert_from_port
        (.ok { der := some [1], openssl_pems := some [some [2], none] })
      ).certificates.length = 3) := by decide

end BackendScanner

namespace TlsScanner

/-- One entry of the chain list built by the STARTTLS/fallback fetchers
(tls_scanner.py lines 281-287): the metadata dict of a parsed
certificate, or the parse-error marker dict. -/
inductive ChainEntry where
  | meta (m : Metadata) : ChainEntry
  | parseError (e : String) : ChainEntry

/-- Embeds the chain loop of fetch_cert_starttls (tls_scanner.py lines
281-287): each extracted PEM block is parsed independently; the try
around parse_cert_from_pem and cert_to_metadata turns any raise into a
parse_error marker entry for that block alone. -/
def buildChain (pems : List (Fallible Cert)) : List ChainEntry :=
  pems.map fun p =>
    match p with
    | .error e => .parseError e
    | .ok c =>
      match cert_to_metadata c with
      | .ok m => .meta m
      | .error e => .parseError e

/-- C7 amended: in tls_scanner.py's fetchers the chain keeps exactly one
entry per PEM block — a metadata entry for each block that parses, a
per-certificate parse-error marker for a malformed block — so a
malformed block neither fails the extraction nor discards the others.
(In backend/app/scanner.py's fetch_cert_from_port, by contrast, a
malformed block is skipped silently with no marker.) -/
theorem starttls_chain_markers (pems : List (Fallible Cert)) (i j : Nat)
    (e : String) (c : Cert) (m : Metadata)
    (hi : pems[i]? = some (.error e))
    (hj : pems[j]? = some (.ok c))
    (hm : cert_to_metadata c = .ok m) :
    (buildChain pems).length = pems.length ∧
    (buildChain pems)[i]? = some (.parseError e) ∧
    (buildChain pems)[j]? = some (.meta m) := by
  refine ⟨by simp [buildChain], ?_, ?_⟩
  · rw [buildChain, List.getElem?_map, hi]
    rfl
  · rw [buildChain, List.getElem?_map, hj]
    simp [hm]

/-- A certificate object every accessor of which succeeds. -/
def goodCert : Cert :=
  { subject := .ok "CN=good.example", issuer := .ok "CN=ca",
    not_before := .ok "2025-01-01T00:00:00",
    not_after := .ok "2026-01-01T00:00:00", serial_number := .ok "0f",
    san := .ok ["good.example"],
    public_key := .ok (.rsa (.ok 2048)),
    signature_algorithm_oid := .ok "1.2.840.113549.1.1.11",
    signature_hash_algorithm := .ok (some "sha256"),
    sha256_fingerprint := .ok "cafe" }

/-- The metadata dict cert_to_metadata builds for goodCert. -/
def goodMeta : Metadata :=
  { subject := some "CN=good.example", issuer := some "CN=ca",
    not_before := some "2025-01-01T00:00:00",
    not_after := some "2026-01-01T00:00:00", serial_number := some "0f",
    parse_error_basic := none, san := ["good.example"],
    public_key_algorithm := some "RSA", public_key_bits := some 2048,
    public_key_curve := none, public_key_parse_error := none,
    signature_algorithm_oid := some "1.2.840.113549.1.1.11",
    signature_hash_algorithm := some "sha256",
    sha256_fingerprint := some "cafe" }

/-- Witness for starttls_chain_markers: a well-formed block followed by
a malformed one — the chain keeps the metadata entry and records a
marker for the bad block. -/
theorem starttls_chain_markers_witness :
    ([.ok goodCert, .error "bad pem"] : List (Fallible Cert))[1]? =
      some (.error "bad pem") ∧
    ([.ok goodCert, .error "bad pem"] : List (Fallible Cert))[0]? =
      some (.ok goodCert) ∧
    cert_to_metadata goodCert = .ok goodMeta ∧
    (buildChain [.ok goodCert, .error "bad pem"]).length = 2 ∧
    (buildChain [.ok goodCert, .error "bad pem"])[1]? =
      some (.parseError "bad pem") ∧
    (buildChain [.ok goodCert, .error "bad pem"])[0]? = some (.meta goodMeta) :=
  have h := starttls_chain_markers [.ok goodCert, .error "bad pem"] 1 0
    "bad pem" goodCert goodMeta rfl rfl rfl
  ⟨rfl, rfl, rfl, h.1, h.2.1, h.2.2⟩

/-- The result dict of fetch_cert_starttls. -/
structure StarttlsResult where
  chain : Option (List ChainEntry)
  leaf : Option ChainEntry
  error : Option String

/-- The observable outcome of run_openssl_showcerts plus PEM extraction
for the STARTTLS fetcher: either openssl produced no stdout (with its
optional error message), or it produced output whose PEM blocks were
extracted, each carrying its parse outcome. -/
inductive GatewayOutcome where
  | noOutput (err : Option String) : GatewayOutcome
  | output (pems : List (Fallible Cert)) : GatewayOutcome

/-- Embeds fetch_cert_starttls (tls_scanner.py lines 266-291): no
openssl output stores the tool's error (or a fixed fallback); output
with no PEM block stores no_pem_found_in_openssl_output; otherwise the
chain is built per block, leaf is chain[0], and error is set to None. -/
def fetch_cert_starttls (g : GatewayOutcome) : StarttlsResult :=
  match g with
  | .noOutput err =>
    { chain := none, leaf := none,
      error := some (err.getD "no_output_from_openssl") }
  | .output pems =>
    if pems.isEmpty then
      { chain := none, leaf := none,
        error := some "no_pem_found_in_openssl_output" }
    else
      { chain := some (buildChain pems), leaf := (buildChain pems).head?,
        error := none }

/-- C10: whenever the external tool's output contains at least one PEM
block, fetch_cert_starttls returns error = None with leaf set to the
first chain entry — even when every block fails to parse — so a
no-error result can carry a leaf that is only a parse-error marker. -/
theorem starttls_leaf_no_error (pems : List (Fallible Cert)) (h : pems ≠ []) :
    (fetch_cert_starttls (.output pems)).error = none ∧
    (fetch_cert_starttls (.output pems)).leaf = (buildChain pems).head? ∧
    ((fetch_cert_starttls (.output pems)).leaf).isSome = true ∧
    ∀ e, pems[0]? = some (.error e) →
      (fetch_cert_starttls (.output pems)).leaf = some (.parseError e) := by
  have hne : pems.isEmpty = false := by
    cases pems with
    | nil => exact absurd rfl h
    | cons p rest => rfl
  refine ⟨?_, ?_, ?_, ?_⟩
  · simp [fetch_cert_starttls, hne]
  · simp [fetch_cert_starttls, hne]
  · simp only [fetch_cert_starttls, hne, Bool.false_eq_true, if_false]
    cases pems with
    | nil => exact absurd rfl h
    | cons p rest => rfl
  · intro e he
    simp only [fetch_cert_starttls, hne, Bool.false_eq_true, if_false]
    rw [List.head?_eq_getElem?, buildChain, List.getElem?_map, he]
    rfl

/-- Witness for starttls_leaf_no_error: openssl output holding a single
malformed PEM block — the result reports no error, yet its leaf is just
the parse-error marker. -/
theorem starttls_leaf_no_error_witness :
    (([.error "bad pem"] : List (Fallible Cert)) ≠ []) ∧
    (fetch_cert_starttls (.output [.error "bad pem"])).error = none ∧
    (fetch_cert_starttls (.output [.error "bad pem"])).leaf =
      some (.parseError "bad pem") :=
  have h : ([.error "bad pem"] : List (Fallible Cert)) ≠ [] := by
    intro hc
    cases hc
  have hs := starttls_leaf_no_error [.error "bad pem"] h
  ⟨h, hs.1, hs.2.2.2 "bad pem" rfl⟩

end TlsScanner
